import Mathlib

/-!
# Verification of the cron_python monitoring scripts

Shallow embedding of the two scripts `sensors-check.py` and `rklb-price.py`.

Modelling choices (all definitions are transliterated from the Python source):

* A parsed JSON row (`record`) is modelled by `Record`, with `Option String`
  fields: `none` models an absent key (and, for `mac`, a JSON `null`, since
  `dict.get` returns `None` in both cases).
* `json.loads` is abstracted as a parameter `parse : String → Option (List Record)`;
  `none` models a `json.JSONDecodeError`.
* Python's `defaultdict(int)` / `dict` (insertion-ordered) are modelled by
  association lists `List (String × Nat)` / `List (String × String)` where a new
  key is appended at the end and an existing key keeps its position, exactly the
  iteration-order semantics of CPython dicts.
* `str.strip()` emptiness is modelled by `isBlank` (every character is
  whitespace).
* Two-decimal float formatting (`f"{x:.2f}"`) is abstracted as a parameter;
  prices are modelled as rationals, which is faithful for the sign
  comparisons the scripts perform.
* `sys.exit(n)` and the notifications posted by `send_notification` are
  modelled by a result structure holding the exit code and the list of
  notifications the run attempted to send (delivery itself is best-effort in
  the source: every delivery failure is swallowed, so it never alters control
  flow and is not modelled).
-/

/-- One parsed JSON row from the remote SQLite query, as consumed by
`analyze_sensor_data` in `sensors-check.py`.  `mac = none` models an absent or
null `"mac"` key; `location = none` models an absent `"location"` key. -/
structure Record where
  mac : Option String
  location : Option String
deriving DecidableEq

/-- Python truthiness test `if not mac: continue` on `record.get('mac')`:
returns `some m` exactly when the mac is present and a non-empty string. -/
def truthyMac (r : Record) : Option String :=
  match r.mac with
  | none => none
  | some m => if m = "" then none else some m

/-- `record.get('location', 'unknown location')`. -/
def recLocation (r : Record) : String :=
  r.location.getD "unknown location"

/-- Python `dict` lookup on an insertion-ordered association list. -/
def getVal {α : Type} : List (String × α) → String → Option α
  | [], _ => none
  | (k, v) :: rest, key => if k = key then some v else getVal rest key

/-- `mac_counts[mac] += 1` on a `defaultdict(int)`: an existing key keeps its
position, a new key is appended at the end with count 1. -/
def bump : List (String × Nat) → String → List (String × Nat)
  | [], mac => [(mac, 1)]
  | (k, v) :: rest, mac =>
      if k = mac then (k, v + 1) :: rest else (k, v) :: bump rest mac

/-- `if mac not in mac_locations: mac_locations[mac] = loc`. -/
def setFirst (locs : List (String × String)) (mac loc : String) :
    List (String × String) :=
  match getVal locs mac with
  | some _ => locs
  | none => locs ++ [(mac, loc)]

/-- The `for record in records:` loop of `analyze_sensor_data`, threading the
`mac_counts` and `mac_locations` dictionaries. -/
def loopRecords : List Record → List (String × Nat) → List (String × String) →
    List (String × Nat) × List (String × String)
  | [], counts, locs => (counts, locs)
  | r :: rs, counts, locs =>
      match truthyMac r with
      | none => loopRecords rs counts locs
      | some mac => loopRecords rs (bump counts mac) (setFirst locs mac (recLocation r))

/-- The final `mac_locations` dictionary built by `analyze_sensor_data` for a
record list. -/
def macLocations (records : List Record) : List (String × String) :=
  (loopRecords records [] []).2

/-- The post-parse part of `analyze_sensor_data`: build `mac_counts` and
`mac_locations`, then collect `(mac, mac_locations[mac])` for every counted
mac with `count < MIN_CHECKINS`, in dictionary (first-occurrence) order.
`mac_locations[mac]` is total in the source because every counted mac was
also recorded in `mac_locations`; the `.getD ""` totalisation never fires. -/
def analyzeRecords (records : List Record) (min_checkins : Nat) :
    List (String × String) :=
  let st := loopRecords records [] []
  (st.1.filter (fun p => p.2 < min_checkins)).map
    (fun p => (p.1, (getVal st.2 p.1).getD ""))

/-- The whitespace characters stripped by Python's `str.strip()` (restricted
to the ASCII whitespace set; Python additionally strips rarer Unicode
spaces, which no claim depends on). -/
def pyWhitespace (c : Char) : Bool :=
  c = ' ' || c = '\t' || c = '\n' || c = '\r' || c = '\x0b' || c = '\x0c'

/-- The test `if not json_output.strip():` — `strip()` leaves the empty
string exactly when every character is whitespace. -/
def isBlank (s : String) : Bool :=
  s.data.all pyWhitespace

/-- `analyze_sensor_data(json_output)` from `sensors-check.py`, with
`json.loads` abstracted as `parse` and `MIN_CHECKINS` as `min_checkins`.
It is a total function: the `JSONDecodeError` branch returns `[]`. -/
def analyze_sensor_data (json_output : String)
    (parse : String → Option (List Record)) (min_checkins : Nat) :
    List (String × String) :=
  if isBlank json_output then []
  else
    match parse json_output with
    | none => []
    | some records => analyzeRecords records min_checkins

/-- Occurrence count of an identifier among the records, counting exactly the
records the loop counts (those whose `mac` is present and non-empty). -/
def countMac : List Record → String → Nat
  | [], _ => 0
  | r :: rs, mac => (if truthyMac r = some mac then 1 else 0) + countMac rs mac

/-- The first record (in input order) counted for a given identifier. -/
def firstRecord : List Record → String → Option Record
  | [], _ => none
  | r :: rs, mac =>
      if truthyMac r = some mac then some r else firstRecord rs mac

/-- The location of an identifier's first occurrence in input order, with the
`'unknown location'` default applied. -/
def firstLoc (records : List Record) (mac : String) : Option String :=
  (firstRecord records mac).map recLocation

/-- One push message handed to `send_notification` (title, body, the string
sent in the `Priority` header, and the emoji tags). -/
structure Ntfy where
  title : String
  message : String
  priority : String
  tags : List String
deriving DecidableEq

/-- Outcome of `execute_sql_query`: `connError` models `asyncssh.Error` being
raised (logged and re-raised by `execute_sql_query`), `ok s` models the
command's stdout. -/
inductive FetchResult where
  | connError : FetchResult
  | ok : String → FetchResult
deriving DecidableEq

/-- The environment-sourced configuration read by `sensors-check.py`:
`os.getenv` yields `none` when the variable is unset. -/
structure SensorConfig where
  ntfy_host : Option String
  ntfy_sensor_topic : Option String
  ssh_host : Option String
  ssh_username : Option String
  database_path : Option String
deriving DecidableEq

/-- Python truthiness of an optional string: `not value` holds for `None`
and for the empty string. -/
def pyFalsy (v : Option String) : Bool :=
  match v with
  | none => true
  | some s => s = ""

/-- `missing_vars` is non-empty in `main`: some required variable is unset or
empty.  The required set is exactly `NTFY_HOST`, `NTFY_SENSOR_TOPIC`,
`SSH_HOST`, `SSH_USERNAME`, `DATABASE_PATH`. -/
def missingVars (c : SensorConfig) : Bool :=
  pyFalsy c.ntfy_host || pyFalsy c.ntfy_sensor_topic || pyFalsy c.ssh_host ||
    pyFalsy c.ssh_username || pyFalsy c.database_path

/-- The "no sensor data" alert sent by `main` when the fetched output is
blank (priority `"4"`). -/
def offlineAlert (minutes_ago : Nat) : Ntfy :=
  { title := "Sensor Check-in Alert"
    message := "No sensor data received in the last " ++ toString minutes_ago ++
      " minutes. All sensors may be offline."
    priority := "4"
    tags := ["warning", "thermometer"] }

/-- The message body listing the sensors with missing check-ins. -/
def missingMessage (missing : List (String × String)) : String :=
  "Missing check-ins detected for " ++ toString missing.length ++
    " sensor(s):\n" ++
    String.intercalate "\n" (missing.map (fun p => p.1 ++ " (" ++ p.2 ++ ")"))

/-- The "missing check-ins" alert sent by `main` (priority `"2"`). -/
def missingAlert (missing : List (String × String)) : Ntfy :=
  { title := "Sensor Check-in Alert"
    message := missingMessage missing
    priority := "2"
    tags := ["warning", "thermometer"] }

/-- Observable outcome of one script invocation: the process exit code and
the notifications the run handed to `send_notification`, in order. -/
structure SensorRun where
  exitCode : Nat
  sent : List Ntfy
deriving DecidableEq

/-- `main()` of `sensors-check.py`.  Control flow transliterated:
missing configuration exits 1 before the fetch; a raised connection error is
caught by the outer `except`, logged, and turns into `sys.exit(1)` with no
notification; blank output sends the priority-4 offline alert and returns;
otherwise the analyzer's result decides between the priority-2 missing alert
and a silent success.  Normal return of `main` is exit code 0. -/
def sensorMain (cfg : SensorConfig) (fetch : FetchResult)
    (parse : String → Option (List Record)) (min_checkins minutes_ago : Nat) :
    SensorRun :=
  if missingVars cfg then { exitCode := 1, sent := [] }
  else
    match fetch with
    | FetchResult.connError => { exitCode := 1, sent := [] }
    | FetchResult.ok json_output =>
        if isBlank json_output then
          { exitCode := 0, sent := [offlineAlert minutes_ago] }
        else
          let missing := analyze_sensor_data json_output parse min_checkins
          if missing.isEmpty then { exitCode := 0, sent := [] }
          else { exitCode := 0, sent := [missingAlert missing] }

/-- The direction indicator chosen in `rklb-price.py` from the sign of
`regularMarketChangePercent`. -/
def selectEmoji (price_change : ℚ) : String :=
  if price_change > 0 then "arrow_up"
  else if price_change < 0 then "arrow_down"
  else "arrow_up_down"

/-- Observable outcome of one `rklb-price.py` invocation.  `formattedPrice`
records whether the run reached the `f"${...}:.2f}"` price-formatting
expression. -/
structure QuoteRun where
  exitCode : Nat
  sent : List Ntfy
  formattedPrice : Bool
deriving DecidableEq

/-- `main()` of `rklb-price.py`, with the Yahoo fetch abstracted as the two
optional fields it reads and two-decimal formatting abstracted as `fmt2`.
A `none` price takes the early-error branch (no formatting).  A present
price with a `none` change formats the price, then raises `TypeError` while
formatting the change; the outer `except` catches it and sends the
`"Yahoo down?"` alert (`priority=4` is stringified by `send_notification`).
The script never calls `sys.exit`, so every path exits 0. -/
def quoteMain (fmt2 : ℚ → String) (current_price price_change : Option ℚ) :
    QuoteRun :=
  match current_price with
  | none =>
      { exitCode := 0
        sent := [{ title := "RKLB quote error", message := "Yahoo data error?",
                   priority := "4", tags := ["skull"] }]
        formattedPrice := false }
  | some p =>
      match price_change with
      | none =>
          { exitCode := 0
            sent := [{ title := "RKLB quote error", message := "Yahoo down?",
                       priority := "4", tags := ["skull"] }]
            formattedPrice := true }
      | some c =>
          { exitCode := 0
            sent := [{ title := "RKLB quote"
                       message := "$" ++ fmt2 p ++ " / " ++ fmt2 c ++ "%"
                       priority := "3"
                       tags := [selectEmoji c] }]
            formattedPrice := true }

/-! ## Lemmas about the dictionary operations -/

theorem getVal_append {α : Type} (l1 l2 : List (String × α)) (key : String) :
    getVal (l1 ++ l2) key =
      match getVal l1 key with
      | some v => some v
      | none => getVal l2 key := by
  induction l1 with
  | nil => simp [getVal]
  | cons p rest ih =>
      obtain ⟨k, v⟩ := p
      by_cases h : k = key
      · simp [getVal, h]
      · simp [getVal, h, ih]

theorem getVal_bump_self (cs : List (String × Nat)) (mac : String) :
    getVal (bump cs mac) mac = some ((getVal cs mac).getD 0 + 1) := by
  induction cs with
  | nil => simp [bump, getVal]
  | cons p rest ih =>
      obtain ⟨k, v⟩ := p
      by_cases h : k = mac
      · subst h; simp [bump, getVal]
      · simp [bump, getVal, h, ih]

theorem getVal_bump_ne (cs : List (String × Nat)) (mac key : String)
    (h : key ≠ mac) : getVal (bump cs mac) key = getVal cs key := by
  induction cs with
  | nil => simp [bump, getVal, Ne.symm h]
  | cons p rest ih =>
      obtain ⟨k, v⟩ := p
      by_cases hk : k = mac
      · subst hk; simp [bump, getVal, Ne.symm h]
      · simp [bump, getVal, hk, ih]

theorem getVal_setFirst (locs : List (String × String)) (mac loc key : String) :
    getVal (setFirst locs mac loc) key =
      match getVal locs key with
      | some v => some v
      | none => if key = mac then some loc else none := by
  unfold setFirst
  cases h : getVal locs mac with
  | some w =>
      cases hk : getVal locs key with
      | some v => simp [hk]
      | none =>
          have hne : key ≠ mac := by
            intro e; subst e; rw [h] at hk; cases hk
          simp [hk, hne]
  | none =>
      rw [getVal_append]
      cases hk : getVal locs key with
      | some v => simp [hk]
      | none =>
          by_cases e : key = mac
          · subst e; simp [hk, getVal]
          · simp [hk, getVal, e, Ne.symm e]

theorem getVal_eq_none_iff {α : Type} (cs : List (String × α)) (key : String) :
    getVal cs key = none ↔ key ∉ cs.map Prod.fst := by
  induction cs with
  | nil => simp [getVal]
  | cons p rest ih =>
      obtain ⟨k, v⟩ := p
      by_cases h : k = key
      · subst h; simp [getVal]
      · simp [getVal, h, ih, Ne.symm h]

theorem map_fst_bump (cs : List (String × Nat)) (mac : String) :
    (bump cs mac).map Prod.fst =
      if getVal cs mac = none then cs.map Prod.fst ++ [mac]
      else cs.map Prod.fst := by
  induction cs with
  | nil => simp [bump, getVal]
  | cons p rest ih =>
      obtain ⟨k, v⟩ := p
      by_cases h : k = mac
      · subst h; simp [bump, getVal]
      · simp [bump, getVal, h, ih]
        by_cases h2 : getVal rest mac = none <;> simp [h2]

theorem nodup_map_fst_bump (cs : List (String × Nat)) (mac : String)
    (h : (cs.map Prod.fst).Nodup) : ((bump cs mac).map Prod.fst).Nodup := by
  rw [map_fst_bump]
  by_cases h2 : getVal cs mac = none
  · have hmem : mac ∉ cs.map Prod.fst := (getVal_eq_none_iff cs mac).1 h2
    simp [h2, List.nodup_append, h, hmem]
  · simp [h2, h]

/-! ## Invariants of the record loop -/

theorem loopRecords_nodup (rs : List Record) :
    ∀ (counts : List (String × Nat)) (locs : List (String × String)),
      (counts.map Prod.fst).Nodup →
      ((loopRecords rs counts locs).1.map Prod.fst).Nodup := by
  induction rs with
  | nil => intro counts locs h; simpa [loopRecords] using h
  | cons r rs ih =>
      intro counts locs h
      cases ht : truthyMac r with
      | none => simpa [loopRecords, ht] using ih counts locs h
      | some m =>
          simpa [loopRecords, ht] using
            ih (bump counts m) (setFirst locs m (recLocation r))
              (nodup_map_fst_bump counts m h)

theorem loopRecords_count (rs : List Record) :
    ∀ (counts : List (String × Nat)) (locs : List (String × String))
      (mac : String),
      getVal (loopRecords rs counts locs).1 mac =
        if countMac rs mac = 0 then getVal counts mac
        else some ((getVal counts mac).getD 0 + countMac rs mac) := by
  induction rs with
  | nil => intro counts locs mac; simp [loopRecords, countMac]
  | cons r rs ih =>
      intro counts locs mac
      cases ht : truthyMac r with
      | none =>
          have hne : ¬ truthyMac r = some mac := by simp [ht]
          simp [loopRecords, ht, countMac, hne, ih]
      | some m =>
          by_cases hm : m = mac
          · subst hm
            have hstep :
                loopRecords (r :: rs) counts locs =
                  loopRecords rs (bump counts m)
                    (setFirst locs m (recLocation r)) := by
              simp [loopRecords, ht]
            rw [hstep, ih, getVal_bump_self]
            simp only [countMac, ht, if_pos rfl]
            by_cases hc : countMac rs m = 0
            · simp [hc]
            · have h1 : ¬ (1 + countMac rs m = 0) := by omega
              have h2 : (getVal counts m).getD 0 + 1 + countMac rs m =
                  (getVal counts m).getD 0 + (1 + countMac rs m) := by omega
              simp [hc, h1, h2]
          · have hne : ¬ truthyMac r = some mac := by simp [ht, hm]
            have hstep :
                loopRecords (r :: rs) counts locs =
                  loopRecords rs (bump counts m)
                    (setFirst locs m (recLocation r)) := by
              simp [loopRecords, ht]
            rw [hstep, ih, getVal_bump_ne counts m mac (Ne.symm hm)]
            simp [countMac, hne]

theorem loopRecords_loc (rs : List Record) :
    ∀ (counts : List (String × Nat)) (locs : List (String × String))
      (mac : String),
      getVal (loopRecords rs counts locs).2 mac =
        match getVal locs mac with
        | some v => some v
        | none => firstLoc rs mac := by
  induction rs with
  | nil =>
      intro counts locs mac
      simp only [loopRecords, firstLoc, firstRecord, Option.map_none]
      cases getVal locs mac <;> simp
  | cons r rs ih =>
      intro counts locs mac
      cases ht : truthyMac r with
      | none =>
          simp [loopRecords, ht, ih, firstLoc, firstRecord]
      | some m =>
          have hstep :
              loopRecords (r :: rs) counts locs =
                loopRecords rs (bump counts m)
                  (setFirst locs m (recLocation r)) := by
            simp [loopRecords, ht]
          rw [hstep, ih, getVal_setFirst]
          by_cases hm : m = mac
          · subst hm
            cases hk : getVal locs m <;>
              simp [firstLoc, firstRecord, ht]
          · have hne : ¬ truthyMac r = some mac := by simp [ht, hm]
            simp only [firstLoc, firstRecord, if_neg hne,
              if_neg (Ne.symm hm)]
            cases hk : getVal locs mac <;> simp

theorem firstRecord_isSome (records : List Record) (mac : String)
    (h : countMac records mac ≠ 0) : (firstRecord records mac).isSome := by
  induction records with
  | nil => simp [countMac] at h
  | cons r rs ih =>
      by_cases ht : truthyMac r = some mac
      · simp [firstRecord, ht]
      · simp only [countMac, if_neg ht, Nat.zero_add] at h
        simp [firstRecord, ht, ih h]

/-! ## From the dictionaries to the output list -/

theorem filter_key_of_not_mem (cs : List (String × Nat)) (mac : String)
    (h : mac ∉ cs.map Prod.fst) : cs.filter (fun p => p.1 = mac) = [] := by
  induction cs with
  | nil => simp
  | cons p rest ih =>
      obtain ⟨k, v⟩ := p
      simp only [List.map_cons, List.mem_cons, not_or] at h
      simp [List.filter_cons, Ne.symm h.1, ih h.2]

theorem filter_key_eq (cs : List (String × Nat)) (mac : String)
    (h : (cs.map Prod.fst).Nodup) :
    cs.filter (fun p => p.1 = mac) =
      match getVal cs mac with
      | some v => [(mac, v)]
      | none => [] := by
  induction cs with
  | nil => simp [getVal]
  | cons p rest ih =>
      obtain ⟨k, v⟩ := p
      simp only [List.map_cons, List.nodup_cons] at h
      by_cases hk : k = mac
      · subst hk
        simp [List.filter_cons, getVal, filter_key_of_not_mem rest k h.1]
      · simp [List.filter_cons, getVal, hk, ih h.2]

theorem filter_key_map (locs : List (String × String))
    (cs : List (String × Nat)) (mac : String) :
    ((cs.map (fun p => (p.1, (getVal locs p.1).getD ""))).filter
        (fun p => p.1 = mac)) =
      (cs.filter (fun p => p.1 = mac)).map
        (fun p => (p.1, (getVal locs p.1).getD "")) := by
  induction cs with
  | nil => simp
  | cons p rest ih =>
      by_cases hk : p.1 = mac <;> simp [List.filter_cons, hk, ih]

theorem filter_lt_filter_key (cs : List (String × Nat)) (mac : String)
    (m : Nat) :
    (cs.filter (fun p => p.2 < m)).filter (fun p => p.1 = mac) =
      (cs.filter (fun p => p.1 = mac)).filter (fun p => p.2 < m) := by
  induction cs with
  | nil => simp
  | cons p rest ih =>
      by_cases h1 : p.2 < m <;> by_cases h2 : p.1 = mac <;>
        simp [List.filter_cons, h1, h2, ih]

/-- Master description of the analyzer's output restricted to one
identifier: nothing when the identifier is never counted or its count
reaches the threshold, and exactly the pair with its first-seen location
when the count is positive and below the threshold. -/
theorem analyzeRecords_filter_key (records : List Record) (m : Nat)
    (mac : String) :
    (analyzeRecords records m).filter (fun p => p.1 = mac) =
      if countMac records mac = 0 then []
      else if countMac records mac < m then
        [(mac, (firstLoc records mac).getD "unknown location")]
      else [] := by
  have hnodup : ((loopRecords records [] []).1.map Prod.fst).Nodup :=
    loopRecords_nodup records [] [] (by simp)
  simp only [analyzeRecords]
  rw [filter_key_map, filter_lt_filter_key, filter_key_eq _ _ hnodup]
  rw [loopRecords_count records [] [] mac]
  have hloc : getVal (loopRecords records [] []).2 mac =
      firstLoc records mac := by
    rw [loopRecords_loc records [] [] mac]; simp [getVal]
  by_cases h0 : countMac records mac = 0
  · simp [h0, getVal]
  · simp only [h0, if_neg h0, getVal, Option.getD_none]
    by_cases hm : countMac records mac < m
    · obtain ⟨r, hr⟩ := Option.isSome_iff_exists.1
        (firstRecord_isSome records mac h0)
      simp [hm, hloc, firstLoc, hr]
    · simp [hm]

theorem loopRecords_skip (l1 : List Record) (r : Record)
    (hr : truthyMac r = none) :
    ∀ (l2 : List Record) (counts : List (String × Nat))
      (locs : List (String × String)),
      loopRecords (l1 ++ r :: l2) counts locs =
        loopRecords (l1 ++ l2) counts locs := by
  induction l1 with
  | nil => intro l2 counts locs; simp [loopRecords, hr]
  | cons a l1 ih =>
      intro l2 counts locs
      cases ha : truthyMac a <;> simp [loopRecords, ha, ih]

theorem countMac_skip (l1 : List Record) (r : Record)
    (hr : truthyMac r = none) (l2 : List Record) (mac : String) :
    countMac (l1 ++ r :: l2) mac = countMac (l1 ++ l2) mac := by
  induction l1 with
  | nil => simp [countMac, hr]
  | cons a l1 ih => simp [countMac, ih]

/-! ## Concrete inputs used by the closed instance theorems -/

/-- A well-formed record: mac `"A"` at location `"wine"`. -/
def recA : Record := { mac := some "A", location := some "wine" }

/-- A well-formed record: mac `"B"` at location `"garage"`. -/
def recB : Record := { mac := some "B", location := some "garage" }

/-- A record whose mac is the empty string (Python-falsy, skipped). -/
def recEmptyMac : Record := { mac := some "", location := some "hall" }

/-- A record with no `location` key. -/
def recNoLoc : Record := { mac := some "C", location := none }

/-- A parse function returning mac `"A"` twice (count 2). -/
def parseTwoA : String → Option (List Record) := fun _ => some [recA, recA]

/-- A parse function returning mac `"B"` once (count 1). -/
def parseOneB : String → Option (List Record) := fun _ => some [recB]

/-- A parse function that always fails, as `json.loads` does on malformed
text. -/
def parseFail : String → Option (List Record) := fun _ => none

/-- A configuration with every required variable set and non-empty. -/
def cfgAllSet : SensorConfig :=
  { ntfy_host := some "ntfy.example"
    ntfy_sensor_topic := some "sensors"
    ssh_host := some "db.example"
    ssh_username := some "pi"
    database_path := some "/data/sensors.db" }

/-- A configuration whose notification host is unset. -/
def cfgNoHost : SensorConfig :=
  { ntfy_host := none
    ntfy_sensor_topic := some "sensors"
    ssh_host := some "db.example"
    ssh_username := some "pi"
    database_path := some "/data/sensors.db" }

/-! ## The claims -/

/-- C1: for every input whose parse yields `records`, an identifier whose
occurrence count reaches `MIN_CHECKINS` does not appear in the analyzer's
output, whatever location it would be paired with. -/
theorem highCount_not_reported (s : String)
    (parse : String → Option (List Record)) (m : Nat)
    (records : List Record) (mac loc : String)
    (hp : parse s = some records) (hc : m ≤ countMac records mac) :
    (mac, loc) ∉ analyze_sensor_data s parse m := by
  intro hmem
  unfold analyze_sensor_data at hmem
  by_cases hb : isBlank s
  · simp [hb] at hmem
  · rw [if_neg hb, hp] at hmem
    have h2 : (mac, loc) ∈
        (analyzeRecords records m).filter (fun p => p.1 = mac) :=
      List.mem_filter.2 ⟨hmem, by simp⟩
    rw [analyzeRecords_filter_key] at h2
    by_cases h0 : countMac records mac = 0
    · simp [h0] at h2
    · have hnl : ¬ countMac records mac < m := by omega
      simp [h0, hnl] at h2

/-- Closed instance of `highCount_not_reported`: mac `"A"` appears twice with
threshold 2, so `("A", "wine")` is not reported. -/
theorem highCount_not_reported_witness :
    ("A", "wine") ∉ analyze_sensor_data "x" parseTwoA 2 :=
  highCount_not_reported "x" parseTwoA 2 [recA, recA] "A" "wine" rfl (by decide)

/-- C2: for every non-blank input whose parse yields `records`, an identifier
that is counted (count strictly positive, so it appears in the records) with
count below `MIN_CHECKINS` appears exactly once in the output, paired with the
location of its first occurrence in input order.  The blank-input hypothesis
only excludes the abstract parse functions that return records for a string
`json.loads` would reject. -/
theorem lowCount_reported_once (s : String)
    (parse : String → Option (List Record)) (m : Nat)
    (records : List Record) (mac : String)
    (hb : isBlank s = false) (hp : parse s = some records)
    (h0 : 0 < countMac records mac) (hm : countMac records mac < m) :
    (analyze_sensor_data s parse m).filter (fun p => p.1 = mac) =
      [(mac, (firstLoc records mac).getD "unknown location")] := by
  have hb2 : ¬ (isBlank s = true) := by simp [hb]
  have hred : analyze_sensor_data s parse m = analyzeRecords records m := by
    unfold analyze_sensor_data
    rw [if_neg hb2, hp]
  rw [hred, analyzeRecords_filter_key]
  have h0n : ¬ countMac records mac = 0 := by omega
  simp [h0n, hm]

/-- Closed instance of `lowCount_reported_once`: mac `"B"` appears once with
threshold 2, so it is reported exactly once with its first-seen location. -/
theorem lowCount_reported_once_witness :
    (analyze_sensor_data "x" parseOneB 2).filter (fun p => p.1 = "B") =
      [("B", (firstLoc [recB] "B").getD "unknown location")] :=
  lowCount_reported_once "x" parseOneB 2 [recB] "B" (by decide) rfl
    (by decide) (by decide)

/-- C3: an input string that fails to parse (the model of malformed JSON)
makes the analyzer return the empty list; `analyze_sensor_data` is a total
function, so no error can escape it. -/
theorem malformed_input_yields_empty (s : String)
    (parse : String → Option (List Record)) (m : Nat)
    (hp : parse s = none) :
    analyze_sensor_data s parse m = [] := by
  unfold analyze_sensor_data
  by_cases hb : isBlank s
  · simp [hb]
  · simp [hb, hp]

/-- Closed instance of `malformed_input_yields_empty` on a string the failing
parse rejects. -/
theorem malformed_input_yields_empty_witness :
    analyze_sensor_data "not valid json" parseFail 2 = [] :=
  malformed_input_yields_empty "not valid json" parseFail 2 rfl

/-- C4 counterexample: with every required variable set, threshold 2 and a
45-minute window, a connection error makes the run exit 1 with NO
notification handed to `send_notification` — the outer `except` block only
logs and exits, so "reports it via a best-effort notification" fails. -/
theorem connError_alert_counterexample :
    ¬ ((sensorMain cfgAllSet FetchResult.connError parseFail 2 45).exitCode = 1 ∧
       (sensorMain cfgAllSet FetchResult.connError parseFail 2 45).sent ≠ []) := by
  have h : sensorMain cfgAllSet FetchResult.connError parseFail 2 45 =
      { exitCode := 1, sent := [] } := by decide
  intro hcl
  rw [h] at hcl
  exact hcl.2 rfl

/-- C4 (amended): when the remote query fails with a connection error and the
configuration is complete, the run is caught (the result is defined, not an
escaping exception), nothing is parsed (the outcome is the same for every
`parse`), there is no retry (the single evaluation is final), the process
exits 1 — and no notification is sent. -/
theorem connError_fatal (cfg : SensorConfig)
    (parse : String → Option (List Record)) (m ma : Nat)
    (h : missingVars cfg = false) :
    sensorMain cfg FetchResult.connError parse m ma =
      { exitCode := 1, sent := [] } := by
  simp [sensorMain, h]

/-- Closed instance of `connError_fatal`. -/
theorem connError_fatal_witness :
    sensorMain cfgAllSet FetchResult.connError parseFail 2 45 =
      { exitCode := 1, sent := [] } :=
  connError_fatal cfgAllSet parseFail 2 45 (by decide)

/-- C5: a blank (empty or whitespace-only) fetched string makes the analyzer
return the empty list, and the orchestrator reacts to the blank fetch with
the distinct "no data at all" alert, sent at numeric priority 4, strictly
higher than the numeric priority 2 of any "missing check-ins" alert. -/
theorem blank_input_offline_alert (s : String)
    (parse : String → Option (List Record)) (m ma : Nat)
    (cfg : SensorConfig) (missing : List (String × String))
    (hb : isBlank s = true) (hc : missingVars cfg = false) :
    analyze_sensor_data s parse m = [] ∧
    (sensorMain cfg (FetchResult.ok s) parse m ma).sent =
      [offlineAlert ma] ∧
    (sensorMain cfg (FetchResult.ok s) parse m ma).exitCode = 0 ∧
    (∃ po pm : Nat, (offlineAlert ma).priority = toString po ∧
      (missingAlert missing).priority = toString pm ∧ pm < po) := by
  refine ⟨?_, ?_, ?_, 4, 2, rfl, rfl, by omega⟩
  · simp [analyze_sensor_data, hb]
  · simp [sensorMain, hc, hb]
  · simp [sensorMain, hc, hb]

/-- Closed instance of `blank_input_offline_alert` on the empty fetch. -/
theorem blank_input_offline_alert_witness :
    analyze_sensor_data "" parseFail 2 = [] ∧
    (sensorMain cfgAllSet (FetchResult.ok "") parseFail 2 45).sent =
      [offlineAlert 45] ∧
    (sensorMain cfgAllSet (FetchResult.ok "") parseFail 2 45).exitCode = 0 ∧
    (∃ po pm : Nat, (offlineAlert 45).priority = toString po ∧
      (missingAlert [("A", "wine")]).priority = toString pm ∧ pm < po) :=
  blank_input_offline_alert "" parseFail 2 45 cfgAllSet [("A", "wine")]
    (by decide) (by decide)

/-- C6: if any required configuration value is unset or empty, the run exits
with code 1 and sends nothing; the outcome is the same for every fetch
result, so the exit happens before (independently of) any fetch. -/
theorem missing_config_exits_one (cfg : SensorConfig) (fetch : FetchResult)
    (parse : String → Option (List Record)) (m ma : Nat)
    (h : missingVars cfg = true) :
    sensorMain cfg fetch parse m ma = { exitCode := 1, sent := [] } := by
  simp [sensorMain, h]

/-- Closed instance of `missing_config_exits_one` with the notification host
unset. -/
theorem missing_config_exits_one_witness :
    sensorMain cfgNoHost FetchResult.connError parseFail 2 45 =
      { exitCode := 1, sent := [] } :=
  missing_config_exits_one cfgNoHost FetchResult.connError parseFail 2 45
    (by decide)

/-- C7: a fetch with no current price sends exactly the error alert — fixed
text, priority `"4"` (numerically above the default `"3"` used for a
successful quote), tag `skull` distinct from every direction tag — formats
no price string, and still exits 0. -/
theorem null_price_error_alert (fmt2 : ℚ → String) (change : Option ℚ) :
    quoteMain fmt2 none change =
      { exitCode := 0
        sent := [{ title := "RKLB quote error", message := "Yahoo data error?",
                   priority := "4", tags := ["skull"] }]
        formattedPrice := false } ∧
    (∀ (p c : ℚ), (∃ perr pok : Nat,
        (quoteMain fmt2 none change).sent.map Ntfy.priority = [toString perr] ∧
        (quoteMain fmt2 (some p) (some c)).sent.map Ntfy.priority =
          [toString pok] ∧
        pok < perr) ∧
      (quoteMain fmt2 none change).sent.map Ntfy.tags ≠
        (quoteMain fmt2 (some p) (some c)).sent.map Ntfy.tags) := by
  refine ⟨rfl, ?_⟩
  intro p c
  refine ⟨⟨4, 3, rfl, rfl, by omega⟩, ?_⟩
  simp only [quoteMain, List.map_cons, List.map_nil, ne_eq,
    List.cons.injEq, and_true]
  intro hcl
  have : "skull" = selectEmoji c := by
    simpa using hcl
  unfold selectEmoji at this
  split_ifs at this <;> simp at this

/-- C8: a price change of exactly 0 selects the neutral `arrow_up_down`
indicator for the quote notification, not `arrow_up` or `arrow_down`. -/
theorem zero_change_neutral_indicator (fmt2 : ℚ → String) (p : ℚ) :
    (quoteMain fmt2 (some p) (some 0)).sent.map Ntfy.tags =
      [["arrow_up_down"]] ∧
    selectEmoji 0 = "arrow_up_down" ∧
    selectEmoji 0 ≠ "arrow_up" ∧ selectEmoji 0 ≠ "arrow_down" := by
  have h : selectEmoji 0 = "arrow_up_down" := by
    unfold selectEmoji
    norm_num
  refine ⟨by simp [quoteMain, h], h, by rw [h]; decide, by rw [h]; decide⟩

/-- C9: the analyzer is a pure function of its input — two runs on equal
input strings, equal parse functions and equal thresholds return equal
output lists (hence identical element order). -/
theorem analyzer_deterministic (s1 s2 : String)
    (p1 p2 : String → Option (List Record)) (m1 m2 : Nat)
    (hs : s1 = s2) (hp : p1 = p2) (hm : m1 = m2) :
    analyze_sensor_data s1 p1 m1 = analyze_sensor_data s2 p2 m2 := by
  subst hs; subst hp; subst hm; rfl

/-- Closed instance of `analyzer_deterministic`. -/
theorem analyzer_deterministic_witness :
    analyze_sensor_data "x" parseOneB 2 = analyze_sensor_data "x" parseOneB 2 :=
  analyzer_deterministic "x" "x" parseOneB parseOneB 2 2 rfl rfl rfl

/-- C10: a record whose mac is absent, null, or empty (`truthyMac` is `none`)
is skipped entirely — deleting it changes neither the analyzer's output nor
any identifier's count — and a counted record with no `location` key that is
an identifier's first occurrence records `"unknown location"` as that
identifier's location. -/
theorem falsy_mac_skipped_and_location_default :
    (∀ (l1 l2 : List Record) (r : Record) (m : Nat), truthyMac r = none →
        analyzeRecords (l1 ++ r :: l2) m = analyzeRecords (l1 ++ l2) m) ∧
    (∀ (l1 l2 : List Record) (r : Record) (mac : String),
        truthyMac r = none →
        countMac (l1 ++ r :: l2) mac = countMac (l1 ++ l2) mac) ∧
    (∀ (records : List Record) (mac : String) (r : Record),
        firstRecord records mac = some r → r.location = none →
        getVal (macLocations records) mac = some "unknown location") := by
  refine ⟨?_, ?_, ?_⟩
  · intro l1 l2 r m hr
    unfold analyzeRecords
    rw [loopRecords_skip l1 r hr]
  · intro l1 l2 r mac hr
    exact countMac_skip l1 r hr l2 mac
  · intro records mac r hfr hl
    unfold macLocations
    rw [loopRecords_loc records [] [] mac]
    simp [getVal, firstLoc, hfr, recLocation, hl]

/-- Closed instance of `falsy_mac_skipped_and_location_default`: an
empty-string mac record is dropped, and a first occurrence without a
location records `"unknown location"`. -/
theorem falsy_mac_skipped_and_location_default_witness :
    analyzeRecords ([recA] ++ recEmptyMac :: []) 2 =
      analyzeRecords ([recA] ++ []) 2 ∧
    countMac ([recA] ++ recEmptyMac :: []) "A" = countMac ([recA] ++ []) "A" ∧
    getVal (macLocations [recNoLoc]) "C" = some "unknown location" :=
  ⟨falsy_mac_skipped_and_location_default.1 [recA] [] recEmptyMac 2 (by decide),
   falsy_mac_skipped_and_location_default.2.1 [recA] [] recEmptyMac "A"
     (by decide),
   falsy_mac_skipped_and_location_default.2.2 [recNoLoc] "C" recNoLoc
     (by decide) rfl⟩
